import Mathlib

/-!
Shallow embedding of the reservoir_gis_server repository (src/config.py,
src/ee_client.py, src/models.py, src/main.py, src/services/analysis_service.py,
src/services/layer_definitions.py).

Modelling conventions:
- Python floats are modelled as rationals (`Rat`).
- Python dictionaries with string keys are association lists, looked up with
  `dictGet`.
- Fallible Python code (raising exceptions) is modelled with `Except String`.
- The remote Earth Engine service is opaque: every `getInfo`, `getMapId` and
  `getThumbURL` round trip is a field of a `RemoteService` oracle.  Remote
  expressions are identified by their locally determined band name together
  with the analysis region; the raster algebra itself runs remotely and is
  not observable locally.
-/

namespace ReservoirGis

/-- Python dict lookup (`d.get(k)`): the value bound to the first occurrence
of the key in the association list, `none` when the key is absent. -/
def dictGet {α : Type} (d : List (String × α)) (k : String) : Option α :=
  (d.find? (fun kv => kv.1 == k)).map (fun kv => kv.2)

/-- Python truthiness of an optional string: `None` and the empty string are
falsy, every other string is truthy. -/
def pyTruthy : Option String → Bool
  | none => false
  | some s => !(s == "")

/-- The numeric value of a decimal digit character (code points 48 to 57). -/
def digitVal (c : Char) : Option Nat :=
  if 48 ≤ c.toNat ∧ c.toNat ≤ 57 then some (c.toNat - 48) else none

/-- Decimal evaluation of a character run; any non-digit character makes the
whole run invalid. -/
def digitsVal : List Char → Option Nat → Option Nat
  | [], acc => acc
  | c :: cs, acc =>
      match digitVal c, acc with
      | some d, some n => digitsVal cs (some (n * 10 + d))
      | _, _ => none

/-- Python `int(s)` on plain decimal strings: an optional sign followed by at
least one digit; `none` models the `ValueError` raised otherwise (the
surrounding whitespace and digit-group underscores Python also accepts do
not occur in the strings this repository reads). -/
def pyInt (s : String) : Option Int :=
  match s.data with
  | [] => none
  | '+' :: [] => none
  | '-' :: [] => none
  | '+' :: cs => (digitsVal cs (some 0)).map (fun n => (n : Int))
  | '-' :: cs => (digitsVal cs (some 0)).map (fun n => -(n : Int))
  | cs => (digitsVal cs (some 0)).map (fun n => (n : Int))

/-- src/models.py `LayerPreview`. -/
structure LayerPreview where
  id : String
  name : String
  description : String
  thumb_url : String
  legend_min : Rat
  legend_max : Rat
  legend_units : String
  palette : List String
  tile_url_template : String
deriving Repr, DecidableEq

/-- src/models.py `LayerStatistics` (the `stdDev` alias maps onto the
`std_dev` field). -/
structure LayerStatistics where
  mean : Rat
  min : Rat
  max : Rat
  std_dev : Rat
deriving Repr, DecidableEq

/-- src/models.py `LayerResult`; the optional classification histogram is a
dict from class label to percentage. -/
structure LayerResult where
  layer : LayerPreview
  statistics : LayerStatistics
  classification_summary : Option (List (String × Rat))
deriving Repr, DecidableEq

/-- src/models.py `AnalysisRequest` after boundary validation:
`buffer_meters` is `Optional[int]`, so a validated request can carry `none`. -/
structure AnalysisRequest where
  latitude : Rat
  longitude : Rat
  buffer_meters : Option Int
deriving Repr, DecidableEq

/-- src/models.py `AnalysisResponse`; `requested_at` is an abstract clock
reading. -/
structure AnalysisResponse where
  requested_at : Nat
  region_area_sqkm : Rat
  layers : List LayerResult
deriving Repr, DecidableEq

/-- The environment variables read by src/config.py and src/ee_client.py. -/
structure Env where
  ee_credentials_path : Option String
  ee_service_account : Option String
  algeria_region_asset : Option String
  ee_default_buffer_m : Option String
deriving Repr, DecidableEq

/-- src/config.py `Settings` (the credentials path is kept as the given
string; `Path(...).expanduser().resolve()` performs no validation that can
fail on the strings modelled here). -/
structure Settings where
  ee_service_account : String
  ee_credentials_path : String
  algeria_asset_id : String
  default_buffer_m : Int
deriving Repr, DecidableEq

/-- src/config.py `Settings.from_env`: requires a truthy EE_CREDENTIALS_PATH
and EE_SERVICE_ACCOUNT, parses EE_DEFAULT_BUFFER_M (default string 10000)
with `int`, and defaults ALGERIA_REGION_ASSET. -/
def Settings.from_env (env : Env) : Except String Settings :=
  if !(pyTruthy env.ee_credentials_path) then
    .error "EE_CREDENTIALS_PATH environment variable is required and must point to the service account JSON file."
  else if !(pyTruthy env.ee_service_account) then
    .error "EE_SERVICE_ACCOUNT environment variable is required and must contain the Earth Engine service account email."
  else
    match pyInt ((env.ee_default_buffer_m).getD "10000") with
    | none => .error "invalid literal for int() with base 10"
    | some b =>
        .ok { ee_service_account := (env.ee_service_account).getD ""
            , ee_credentials_path := (env.ee_credentials_path).getD ""
            , algeria_asset_id :=
                (env.algeria_region_asset).getD "projects/ee-bensefiasofian/assets/Maine"
            , default_buffer_m := b }

/-- Session state of the remote client library: whether `ee.data._credentials`
is set, plus a spy counter of how many times `ee.Initialize` has run. -/
structure EEState where
  credentials : Bool
  initCalls : Nat
deriving Repr, DecidableEq

/-- The state of a freshly started process: no credentials, no
`ee.Initialize` call yet. -/
def freshEEState : EEState :=
  { credentials := false, initCalls := 0 }

/-- src/ee_client.py `initialize_earth_engine`: returns at once when
credentials are already present; raises when EE_PRIVATE_KEY is missing or
empty; otherwise authenticates through `ee.Initialize`, which sets the
credentials flag (and bumps the spy counter). -/
def initialize_earth_engine (privateKey : Option String) (s : EEState) :
    Except String EEState :=
  if s.credentials then .ok s
  else if !(pyTruthy privateKey) then
    .error "EE_PRIVATE_KEY environment variable is missing. Set it in Render with the private key of the service account."
  else .ok { credentials := true, initCalls := s.initCalls + 1 }

/-- A sequence of `initialize_earth_engine` calls from the various entry
points of one process; a raised initialization error leaves the session
state unchanged. -/
def initSequence : List (Option String) → EEState → EEState
  | [], s => s
  | k :: ks, s =>
      match initialize_earth_engine k s with
      | .ok s2 => initSequence ks s2
      | .error _ => initSequence ks s

/-- src/services/analysis_service.py `_create_analysis_region`: the buffered
point clipped to the study area is a lazily built remote expression; locally
only the request parameters that shape it are known. -/
structure Region where
  longitude : Rat
  latitude : Rat
  buffer : Option Int
deriving Repr, DecidableEq

def _create_analysis_region (request : AnalysisRequest) : Region :=
  { longitude := request.longitude
  , latitude := request.latitude
  , buffer := request.buffer_meters }

/-- src/services/layer_definitions.py `ComputedLayer`: of the lazily built
remote images only the band name of `image`, the reduction `scale`, and the
band name of the optional `classification_image` are locally determined
(every compute recipe ends in `rename`); `vis_params` is reconstructed by
the caller from the definition and is not needed here. -/
structure ComputedLayer where
  imageBand : String
  scale : Nat
  classificationBand : Option String
deriving Repr, DecidableEq

/-- Earth Engine `clamp(lo, hi)` on integers. -/
def eeClamp (lo hi x : Int) : Int :=
  max lo (min x hi)

/-- src/services/layer_definitions.py `classification_from_percentage`,
per-pixel numeric semantics of `image.divide(33.34).floor().int().clamp(0, 2)`. -/
def classification_from_percentage (p : Rat) : Int :=
  eeClamp 0 2 ⌊p / (33.34 : Rat)⌋

/-- The band renaming performed by `classification_from_percentage`:
`band_name.cat("_class")`. -/
def classificationBandName (band : String) : String :=
  band ++ "_class"

/-- src/services/layer_definitions.py `soil_stability`. -/
def soil_stability (_region : Region) : ComputedLayer :=
  { imageBand := "soil_stability", scale := 250
  , classificationBand := some (classificationBandName "soil_stability") }

/-- src/services/layer_definitions.py `solid_rock`. -/
def solid_rock (_region : Region) : ComputedLayer :=
  { imageBand := "solid_rock", scale := 90
  , classificationBand := some (classificationBandName "solid_rock") }

/-- src/services/layer_definitions.py `water_source_availability`. -/
def water_source_availability (_region : Region) : ComputedLayer :=
  { imageBand := "water_sources", scale := 120
  , classificationBand := some (classificationBandName "water_sources") }

/-- src/services/layer_definitions.py `water_storage_capacity`. -/
def water_storage_capacity (_region : Region) : ComputedLayer :=
  { imageBand := "storage_capacity", scale := 120
  , classificationBand := some (classificationBandName "storage_capacity") }

/-- src/services/layer_definitions.py `flood_risk`. -/
def flood_risk (_region : Region) : ComputedLayer :=
  { imageBand := "flood_risk", scale := 500
  , classificationBand := some (classificationBandName "flood_risk") }

/-- src/services/layer_definitions.py `topographic_suitability`. -/
def topographic_suitability (_region : Region) : ComputedLayer :=
  { imageBand := "topographic_suitability", scale := 90
  , classificationBand := some (classificationBandName "topographic_suitability") }

/-- src/services/layer_definitions.py `drainage_density`. -/
def drainage_density (_region : Region) : ComputedLayer :=
  { imageBand := "drainage_density", scale := 120
  , classificationBand := some (classificationBandName "drainage_density") }

/-- src/services/layer_definitions.py `aspect_sun_exposure`. -/
def aspect_sun_exposure (_region : Region) : ComputedLayer :=
  { imageBand := "sun_aspect", scale := 250
  , classificationBand := some (classificationBandName "sun_aspect") }

/-- src/services/layer_definitions.py `wildlife_impact`. -/
def wildlife_impact (_region : Region) : ComputedLayer :=
  { imageBand := "wildlife_impact", scale := 20
  , classificationBand := some (classificationBandName "wildlife_impact") }

/-- src/services/layer_definitions.py `undisturbed_areas` (the classification
image is computed on the unmasked raster but keeps the same band name). -/
def undisturbed_areas (_region : Region) : ComputedLayer :=
  { imageBand := "undisturbed_areas", scale := 20
  , classificationBand := some (classificationBandName "undisturbed_areas") }

/-- src/services/layer_definitions.py `groundwater_quality`. -/
def groundwater_quality (_region : Region) : ComputedLayer :=
  { imageBand := "groundwater_quality", scale := 250
  , classificationBand := some (classificationBandName "groundwater_quality") }

/-- src/services/layer_definitions.py `LayerDefinition`. -/
structure LayerDefinition where
  id : String
  name : String
  description : String
  units : String
  palette : List String
  min_value : Rat
  max_value : Rat
  scale : Nat
  compute : Region → ComputedLayer

/-- src/services/layer_definitions.py `LAYER_DEFINITIONS`, the layer catalog
with its metadata copied verbatim from the source, in source order. -/
def LAYER_DEFINITIONS : List LayerDefinition :=
  [ { id := "soil_stability"
    , name := "Soil Stability"
    , description := "Composite soil erodibility indicator combining clay, sand, and organic carbon fractions."
    , units := "Suitability (%)"
    , palette := ["#5e4fa2", "#3288bd", "#66c2a5", "#abdda4", "#e6f598", "#fee08b", "#f46d43", "#d53e4f"]
    , min_value := 0, max_value := 100, scale := 250
    , compute := soil_stability }
  , { id := "solid_rock"
    , name := "Presence of Solid Rock"
    , description := "Higher values represent exposed or shallow bedrock derived from slope and coarse soil fractions."
    , units := "Likelihood (%)"
    , palette := ["#f7fbff", "#08306b"]
    , min_value := 0, max_value := 100, scale := 90
    , compute := solid_rock }
  , { id := "water_sources"
    , name := "Water Source Availability"
    , description := "Flow accumulation-based index highlighting potential surface water presence."
    , units := "Availability (%)"
    , palette := ["#ffffcc", "#a1dab4", "#41b6c4", "#2c7fb8", "#253494"]
    , min_value := 0, max_value := 100, scale := 120
    , compute := water_source_availability }
  , { id := "storage_capacity"
    , name := "Water Storage Capacity"
    , description := "Suitability for building reservoirs considering slope flatness and upstream accumulation."
    , units := "Suitability (%)"
    , palette := ["#ffffd4", "#fed98e", "#fe9929", "#d95f0e", "#993404"]
    , min_value := 0, max_value := 100, scale := 120
    , compute := water_storage_capacity }
  , { id := "flood_risk"
    , name := "Flood Risk"
    , description := "Combined rainfall intensity (2020-2023 mean) and flow accumulation likelihood of flooding."
    , units := "Risk (%)"
    , palette := ["#f7fbff", "#c6dbef", "#6baed6", "#2171b5", "#08306b"]
    , min_value := 0, max_value := 100, scale := 500
    , compute := flood_risk }
  , { id := "topographic_suitability"
    , name := "Topographic Suitability"
    , description := "Inverse slope metric identifying flat surfaces better suited for reservoirs."
    , units := "Suitability (%)"
    , palette := ["#ffffcc", "#c2e699", "#78c679", "#31a354", "#006837"]
    , min_value := 0, max_value := 100, scale := 90
    , compute := topographic_suitability }
  , { id := "drainage_density"
    , name := "Drainage Density"
    , description := "Hydrological connectivity index derived from HydroSHEDS flow accumulation."
    , units := "Density (%)"
    , palette := ["#f7fcf0", "#ccebc5", "#7bccc4", "#2b8cbe", "#084081"]
    , min_value := 0, max_value := 100, scale := 120
    , compute := drainage_density }
  , { id := "sun_aspect"
    , name := "Aspect (Sun Exposure)"
    , description := "South-facing slopes receive higher solar exposure (useful for solar-powered infrastructure)."
    , units := "Exposure (%)"
    , palette := ["#fff7ec", "#fee8c8", "#fdbb84", "#fc8d59", "#e34a33", "#b30000"]
    , min_value := 0, max_value := 100, scale := 250
    , compute := aspect_sun_exposure }
  , { id := "wildlife_impact"
    , name := "Impact on Wildlife"
    , description := "Higher NDVI indicates healthier habitats; higher values suggest greater ecological sensitivity."
    , units := "Sensitivity (%)"
    , palette := ["#fff7ec", "#d0d1e6", "#74a9cf", "#0570b0", "#034e7b"]
    , min_value := 0, max_value := 100, scale := 20
    , compute := wildlife_impact }
  , { id := "undisturbed_areas"
    , name := "Undisturbed Natural Areas"
    , description := "Binary mask of dense vegetation (NDVI > 0.55) representing preserved natural terrain."
    , units := "Presence (%)"
    , palette := ["#f7fcb9", "#c2e699", "#78c679", "#238443"]
    , min_value := 0, max_value := 100, scale := 20
    , compute := undisturbed_areas }
  , { id := "groundwater_quality"
    , name := "Impact on Groundwater Quality"
    , description := "Soil composition proxy for groundwater recharge quality (organic carbon + clay, low sand)."
    , units := "Quality (%)"
    , palette := ["#edf8fb", "#b3cde3", "#8c96c6", "#8856a7", "#810f7c"]
    , min_value := 0, max_value := 100, scale := 250
    , compute := groundwater_quality }
  ]

/-- The remote geospatial compute service together with the process clock, as
observed by src/services/analysis_service.py.  Each field is one kind of
round trip; remote expressions are identified by their locally determined
band name (plus the region and reduction scale where the source passes
them).  Any fixed behaviour of the remote service is one value of this
structure. -/
structure RemoteService where
  regionAreaInfo : Region → Except String Rat
  statsInfo : Region → String → Nat → Except String (List (String × Option Rat))
  bandNamesInfo : String → Except String (List String)
  histInfo : Region → String → Nat →
      Except String (List (String × Option (List (Int × Rat))))
  mapIdInfo : String → Except String (String × String)
  thumbUrlInfo : Region → String → Except String String
  now : Nat

/-- Python `stats.get(key, 0.0) or 0.0`: a missing key, a null value and 0.0
itself all give 0.0 (null and 0.0 are falsy). -/
def pyGetOr0 (d : List (String × Option Rat)) (k : String) : Rat :=
  match dictGet d k with
  | none => 0
  | some none => 0
  | some (some v) => v

/-- src/services/analysis_service.py `_compute_statistics`: one combined
mean/minMax/stdDev reduction, then a lookup of each aggregate under the key
built from the first remote band name; indexing an empty band list raises. -/
def _compute_statistics (svc : RemoteService) (region : Region)
    (imageBand : String) (scale : Nat) : Except String LayerStatistics :=
  match svc.statsInfo region imageBand scale with
  | .error e => .error e
  | .ok stats =>
      match svc.bandNamesInfo imageBand with
      | .error e => .error e
      | .ok [] => .error "list index out of range"
      | .ok (band_name :: _) =>
          .ok { mean := pyGetOr0 stats (band_name ++ "_mean")
              , min := pyGetOr0 stats (band_name ++ "_min")
              , max := pyGetOr0 stats (band_name ++ "_max")
              , std_dev := pyGetOr0 stats (band_name ++ "_stdDev") }

/-- src/services/analysis_service.py `_compute_classification_summary`: a
frequency-histogram reduction; the class-count dict is looked up under the
first remote band name, a missing, null or empty dict and a zero total all
yield no summary, otherwise each count becomes `(count / total) * 100`
keyed by the class label. -/
def _compute_classification_summary (svc : RemoteService) (region : Region)
    (classificationBand : Option String) (scale : Nat) :
    Except String (Option (List (String × Rat))) :=
  match classificationBand with
  | none => .ok none
  | some key =>
      match svc.histInfo region key scale with
      | .error e => .error e
      | .ok histogram =>
          match svc.bandNamesInfo key with
          | .error e => .error e
          | .ok [] => .error "list index out of range"
          | .ok (band_name :: _) =>
              match dictGet histogram band_name with
              | none => .ok none
              | some none => .ok none
              | some (some class_counts) =>
                  if class_counts.isEmpty then .ok none
                  else
                    let total := (class_counts.map (fun c => c.2)).sum
                    if total = 0 then .ok none
                    else
                      .ok (some (class_counts.map
                        (fun c => (toString c.1, c.2 / total * 100))))

/-- src/services/analysis_service.py `_build_tile_url`. -/
def _build_tile_url (svc : RemoteService) (imageBand : String) :
    Except String String :=
  match svc.mapIdInfo imageBand with
  | .error e => .error e
  | .ok mapInfo =>
      .ok ("https://earthengine.googleapis.com/map/" ++ mapInfo.1 ++
           "/{z}/{x}/{y}?token=" ++ mapInfo.2)

/-- src/services/analysis_service.py `_build_thumb_url`. -/
def _build_thumb_url (svc : RemoteService) (region : Region)
    (imageBand : String) : Except String String :=
  svc.thumbUrlInfo region imageBand

/-- src/services/analysis_service.py `_evaluate_layer`: statistics, then the
classification summary, then the tile and thumbnail URLs; the first raised
error aborts the layer. -/
def _evaluate_layer (svc : RemoteService) (region : Region)
    (definition : LayerDefinition) : Except String LayerResult :=
  let computed := definition.compute region
  match _compute_statistics svc region computed.imageBand computed.scale with
  | .error e => .error e
  | .ok statistics =>
      match _compute_classification_summary svc region
          computed.classificationBand computed.scale with
      | .error e => .error e
      | .ok classification =>
          match _build_tile_url svc computed.imageBand with
          | .error e => .error e
          | .ok tile_url =>
              match _build_thumb_url svc region computed.imageBand with
              | .error e => .error e
              | .ok thumb_url =>
                  .ok { layer :=
                          { id := definition.id
                          , name := definition.name
                          , description := definition.description
                          , thumb_url := thumb_url
                          , legend_min := definition.min_value
                          , legend_max := definition.max_value
                          , legend_units := definition.units
                          , palette := definition.palette
                          , tile_url_template := tile_url }
                      , statistics := statistics
                      , classification_summary := classification }

/-- The sequential loop of src/services/analysis_service.py `run_analysis`
over the catalog: the first layer failure aborts the whole request. -/
def evalLayers (svc : RemoteService) (region : Region) :
    List LayerDefinition → Except String (List LayerResult)
  | [] => .ok []
  | d :: ds =>
      match _evaluate_layer svc region d with
      | .error e => .error e
      | .ok r =>
          match evalLayers svc region ds with
          | .error e => .error e
          | .ok rs => .ok (r :: rs)

/-- The body of src/services/analysis_service.py `run_analysis` after the
initialization call: region construction, the area round trip (the division
by 1,000,000 happens inside the remote expression), the layer loop, and
response assembly. -/
def run_analysis_core (request : AnalysisRequest) (svc : RemoteService) :
    Except String AnalysisResponse :=
  let region := _create_analysis_region request
  match svc.regionAreaInfo region with
  | .error e => .error e
  | .ok area_sqkm =>
      match evalLayers svc region LAYER_DEFINITIONS with
      | .error e => .error e
      | .ok layer_results =>
          .ok { requested_at := svc.now
              , region_area_sqkm := area_sqkm
              , layers := layer_results }

/-- src/services/analysis_service.py `run_analysis`: calls
`initialize_earth_engine` first (threading the session state), then runs the
core; an initialization failure propagates as the raised exception. -/
def run_analysis (privateKey : Option String) (ee : EEState)
    (request : AnalysisRequest) (svc : RemoteService) :
    EEState × Except String AnalysisResponse :=
  match initialize_earth_engine privateKey ee with
  | .error e => (ee, .error e)
  | .ok ee2 => (ee2, run_analysis_core request svc)

/-- The state of the `buffer_meters` field in a POST /analysis JSON body:
absent, an explicit null, or an integer value. -/
inductive BufferField where
  | omitted : BufferField
  | null : BufferField
  | intVal : Int → BufferField
deriving Repr, DecidableEq

/-- Boundary validation of `buffer_meters` per src/models.py
(`Optional[int] = Field(10000, ge=1000, le=50000)` under pydantic v2): an
omitted field takes the default 10000, an explicit null is accepted as-is
because the range constraints attach only to the integer branch of the
optional type, and an integer must lie in [1000, 50000]. -/
def validate_buffer : BufferField → Except String (Option Int)
  | .omitted => .ok (some 10000)
  | .null => .ok none
  | .intVal n =>
      if n < 1000 then .error "Input should be greater than or equal to 1000"
      else if 50000 < n then .error "Input should be less than or equal to 50000"
      else .ok (some n)

/-- Boundary validation of a whole POST /analysis body (latitude and
longitude are unconstrained floats). -/
def validate_analysis_request (lat lon : Rat) (buf : BufferField) :
    Except String AnalysisRequest :=
  match validate_buffer buf with
  | .error e => .error e
  | .ok b => .ok { latitude := lat, longitude := lon, buffer_meters := b }

/-- Outcome of one POST /analysis request at the HTTP boundary. -/
inductive HttpOutcome where
  | success : AnalysisResponse → HttpOutcome
  | validationError : String → HttpOutcome
  | serverError : String → HttpOutcome
deriving Repr, DecidableEq

/-- The HTTP status code of an outcome: FastAPI answers request-validation
failures with 422 and the except-clause of `perform_analysis` raises
`HTTPException(status_code=500, detail=str(exc))`. -/
def HttpOutcome.status : HttpOutcome → Nat
  | .success _ => 200
  | .validationError _ => 422
  | .serverError _ => 500

/-- src/main.py `perform_analysis` together with the framework boundary: a
body failing validation is rejected with 422 before the handler (and hence
before `run_analysis` or any remote call) runs; otherwise `run_analysis` is
called and any raised exception becomes a 500 whose detail is the string of
the exception. -/
def post_analysis (privateKey : Option String) (ee : EEState) (lat lon : Rat)
    (buf : BufferField) (svc : RemoteService) : EEState × HttpOutcome :=
  match validate_analysis_request lat lon buf with
  | .error detail => (ee, .validationError detail)
  | .ok request =>
      match run_analysis privateKey ee request svc with
      | (ee2, .error e) => (ee2, .serverError e)
      | (ee2, .ok response) => (ee2, .success response)

/-- src/main.py `HealthResponse`. -/
structure HealthResponse where
  status : String
  service_account : String
  region_asset : String
deriving Repr, DecidableEq

/-- src/main.py `health_check`: reads the injected settings only. -/
def health_check (config : Settings) : HealthResponse :=
  { status := "ok"
  , service_account := config.ee_service_account
  , region_asset := config.algeria_asset_id }

/-- The mutable state of one server process: the module-level settings and
the remote-client session state. -/
structure AppState where
  config : Settings
  ee : EEState

/-- One POST /analysis request as the application sees it. -/
structure AnalysisInput where
  lat : Rat
  lon : Rat
  buffer : BufferField
  svc : RemoteService

/-- One pass of a POST /analysis request through the process: only the
session state can change; the settings are never written. -/
def analysis_endpoint_step (privateKey : Option String) (st : AppState)
    (inp : AnalysisInput) : AppState × HttpOutcome :=
  let r := post_analysis privateKey st.ee inp.lat inp.lon inp.buffer inp.svc
  ({ config := st.config, ee := r.1 }, r.2)

/-- Any number of sequential POST /analysis requests. -/
def run_requests (privateKey : Option String) :
    List AnalysisInput → AppState → AppState
  | [], st => st
  | inp :: rest, st =>
      run_requests privateKey rest (analysis_endpoint_step privateKey st inp).1

/-- A session state in which the process has already authenticated once. -/
def readyEE : EEState :=
  { credentials := true, initCalls := 1 }

/-- A concrete request used to instantiate universally quantified theorems. -/
def demoRequest : AnalysisRequest :=
  { latitude := 28, longitude := 3, buffer_meters := some 10000 }

/-- A fixed remote service answering every round trip successfully with
empty aggregates (empty stats dict, empty histogram dict, area 0). -/
def emptySvc : RemoteService :=
  { regionAreaInfo := fun _ => .ok 0
  , statsInfo := fun _ _ _ => .ok []
  , bandNamesInfo := fun key => .ok [key]
  , histInfo := fun _ _ _ => .ok []
  , mapIdInfo := fun _ => .ok ("mapid", "token")
  , thumbUrlInfo := fun _ _ => .ok "https://example.test/thumb.png"
  , now := 0 }

/-- The response `run_analysis` computes for `demoRequest` against
`emptySvc` (the run succeeds, so the error branch is never taken). -/
def demoResp : AnalysisResponse :=
  match (run_analysis (some "pk") readyEE demoRequest emptySvc).2 with
  | .ok r => r
  | .error _ => { requested_at := 0, region_area_sqkm := 0, layers := [] }

/-- A fixed remote service whose very first round trip (the region area)
raises. -/
def failingSvc : RemoteService :=
  { regionAreaInfo := fun _ => .error "Computation failed"
  , statsInfo := fun _ _ _ => .ok []
  , bandNamesInfo := fun key => .ok [key]
  , histInfo := fun _ _ _ => .ok []
  , mapIdInfo := fun _ => .ok ("mapid", "token")
  , thumbUrlInfo := fun _ _ => .ok "https://example.test/thumb.png"
  , now := 0 }

/-- A fixed remote service whose frequency-histogram reduction returns a
class-count dict of 30 pixels in class 0 and 70 in class 1 for every band. -/
def histSvc : RemoteService :=
  { regionAreaInfo := fun _ => .ok 314
  , statsInfo := fun _ _ _ => .ok []
  , bandNamesInfo := fun key => .ok [key]
  , histInfo := fun _ key _ => .ok [(key, some [(0, 30), (1, 70)])]
  , mapIdInfo := fun _ => .ok ("mapid", "token")
  , thumbUrlInfo := fun _ _ => .ok "https://example.test/thumb.png"
  , now := 0 }

/-- Whether an `Except` carries a value (the call did not raise). -/
def isOkE {α : Type} (e : Except String α) : Bool :=
  match e with
  | .ok _ => true
  | .error _ => false

/-- A call on an already-authenticated session returns at once. -/
theorem credentials_preserved (k : Option String) (s : EEState)
    (h : s.credentials = true) : initialize_earth_engine k s = .ok s := by
  simp [initialize_earth_engine, h]

/-- Once authenticated, any further sequence of initialization calls leaves
the session state untouched. -/
theorem initSequence_fixed (ks : List (Option String)) (s : EEState)
    (h : s.credentials = true) : initSequence ks s = s := by
  induction ks with
  | nil => rfl
  | cons k ks ih => simp [initSequence, credentials_preserved k s h, ih]

/-- From an unauthenticated state, a sequence of initialization calls runs
`ee.Initialize` at most once. -/
theorem initSequence_calls_aux (ks : List (Option String)) :
    ∀ s : EEState, s.credentials = false →
      (initSequence ks s).initCalls ≤ s.initCalls + 1 := by
  induction ks with
  | nil => intro s _; simp [initSequence]
  | cons k ks ih =>
      intro s h
      cases hk : pyTruthy k with
      | false =>
          have : initialize_earth_engine k s =
              .error "EE_PRIVATE_KEY environment variable is missing. Set it in Render with the private key of the service account." := by
            simp [initialize_earth_engine, h, hk]
          simp only [initSequence, this]
          exact ih s h
      | true =>
          have hinit : initialize_earth_engine k s =
              .ok { credentials := true, initCalls := s.initCalls + 1 } := by
            simp [initialize_earth_engine, h, hk]
          simp only [initSequence, hinit]
          rw [initSequence_fixed ks _ rfl]

/-- A successful initialization call always leaves the credentials flag set. -/
theorem initialize_ok_credentials (k : Option String) (s s2 : EEState)
    (h : initialize_earth_engine k s = .ok s2) : s2.credentials = true := by
  unfold initialize_earth_engine at h
  split at h
  · cases h
    assumption
  · split at h
    · cases h
    · cases h
      rfl

/-- Claim C7: `initialize_earth_engine` is idempotent: an authenticated
session is returned unchanged, a second call after any successful call has
the same effect on the session state as the first, and across any sequence
of calls within one process `ee.Initialize` runs at most once. -/
theorem c7_initialize_idempotent :
    (∀ (k : Option String) (s : EEState), s.credentials = true →
        initialize_earth_engine k s = .ok s) ∧
    (∀ (k k2 : Option String) (s s2 : EEState),
        initialize_earth_engine k s = .ok s2 →
        initialize_earth_engine k2 s2 = .ok s2) ∧
    (∀ ks : List (Option String),
        (initSequence ks freshEEState).initCalls ≤ 1) := by
  refine ⟨credentials_preserved, ?_, ?_⟩
  · intro k k2 s s2 h
    exact credentials_preserved k2 s2 (initialize_ok_credentials k s s2 h)
  · intro ks
    simpa [freshEEState] using initSequence_calls_aux ks freshEEState rfl

/-- Claim C8: configuration loading fails fast: `Settings.from_env` raises
exactly when EE_CREDENTIALS_PATH or EE_SERVICE_ACCOUNT is missing or empty
or EE_DEFAULT_BUFFER_M does not parse as an integer, and session
initialization from a fresh process raises exactly when EE_PRIVATE_KEY is
missing or empty. -/
theorem c8_config_fail_fast (env : Env) (k : Option String) :
    (isOkE (Settings.from_env env) = true ↔
      (pyTruthy env.ee_credentials_path = true ∧
       pyTruthy env.ee_service_account = true ∧
       (pyInt ((env.ee_default_buffer_m).getD "10000")).isSome = true)) ∧
    (isOkE (initialize_earth_engine k freshEEState) = true ↔
      pyTruthy k = true) := by
  constructor
  · cases h1 : pyTruthy env.ee_credentials_path <;>
      cases h2 : pyTruthy env.ee_service_account <;>
        cases h3 : pyInt ((env.ee_default_buffer_m).getD "10000") <;>
          simp [Settings.from_env, isOkE, h1, h2, h3]
  · unfold initialize_earth_engine freshEEState
    cases hk : pyTruthy k <;> simp [isOkE, hk]

/-- Claim C6: the three-class discretization assigns
`clamp(floor(p / 33.34), 0, 2)`: on [0, 100] the classes are 0 on
[0, 33.34), 1 on [33.34, 66.68) and 2 on [66.68, 100]. -/
theorem c6_classification_thresholds (p : Rat) (h0 : 0 ≤ p) (h100 : p ≤ 100) :
    classification_from_percentage p = eeClamp 0 2 ⌊p / (33.34 : Rat)⌋ ∧
    (p < 33.34 → classification_from_percentage p = 0) ∧
    (33.34 ≤ p → p < 66.68 → classification_from_percentage p = 1) ∧
    (66.68 ≤ p → classification_from_percentage p = 2) := by
  have hc : (0 : Rat) < 33.34 := by norm_num
  refine ⟨rfl, ?_, ?_, ?_⟩
  · intro hlt
    have hf : ⌊p / (33.34 : Rat)⌋ = 0 := by
      apply Int.floor_eq_iff.mpr
      constructor
      · exact_mod_cast div_nonneg h0 hc.le
      · push_cast
        rw [zero_add, div_lt_one hc]
        exact hlt
    show eeClamp 0 2 ⌊p / (33.34 : Rat)⌋ = 0
    rw [hf]
    unfold eeClamp
    omega
  · intro hge hlt
    have hf : ⌊p / (33.34 : Rat)⌋ = 1 := by
      apply Int.floor_eq_iff.mpr
      constructor
      · push_cast
        rw [le_div_iff₀ hc]
        linarith
      · push_cast
        rw [div_lt_iff₀ hc]
        linarith
    show eeClamp 0 2 ⌊p / (33.34 : Rat)⌋ = 1
    rw [hf]
    unfold eeClamp
    omega
  · intro hge
    have hf : ⌊p / (33.34 : Rat)⌋ = 2 := by
      apply Int.floor_eq_iff.mpr
      constructor
      · push_cast
        rw [le_div_iff₀ hc]
        linarith
      · push_cast
        rw [div_lt_iff₀ hc]
        linarith
    show eeClamp 0 2 ⌊p / (33.34 : Rat)⌋ = 2
    rw [hf]
    unfold eeClamp
    omega

/-- Witness for C6 at the concrete inputs 20, 50 and 80. -/
theorem c6_classification_thresholds_witness :
    classification_from_percentage 20 = 0 ∧
    classification_from_percentage 50 = 1 ∧
    classification_from_percentage 80 = 2 := by
  refine ⟨?_, ?_, ?_⟩
  · exact (c6_classification_thresholds 20 (by norm_num) (by norm_num)).2.1
      (by norm_num)
  · exact (c6_classification_thresholds 50 (by norm_num) (by norm_num)).2.2.1
      (by norm_num) (by norm_num)
  · exact (c6_classification_thresholds 80 (by norm_num) (by norm_num)).2.2.2
      (by norm_num)

/-- Claim C2: an integer `buffer_meters` outside [1000, 50000] is rejected
with 422 by boundary validation, leaving the session state untouched and
with an outcome independent of the remote service (so before `run_analysis`
or any remote call); an omitted `buffer_meters` defaults to 10000. -/
theorem c2_buffer_range_rejected (pk : Option String) (ee : EEState)
    (lat lon : Rat) (n : Int) (h : n < 1000 ∨ 50000 < n) :
    (∀ svc : RemoteService,
        (post_analysis pk ee lat lon (.intVal n) svc).1 = ee ∧
        (post_analysis pk ee lat lon (.intVal n) svc).2.status = 422 ∧
        ∀ svc2 : RemoteService,
          post_analysis pk ee lat lon (.intVal n) svc =
            post_analysis pk ee lat lon (.intVal n) svc2) ∧
    validate_buffer .omitted = .ok (some 10000) := by
  have hv : ∃ d, validate_buffer (.intVal n) = .error d := by
    rcases h with h | h
    · exact ⟨"Input should be greater than or equal to 1000",
        by simp [validate_buffer, h]⟩
    · have h2 : ¬n < 1000 := by omega
      exact ⟨"Input should be less than or equal to 50000",
        by simp [validate_buffer, h2, h]⟩
  obtain ⟨d, hd⟩ := hv
  refine ⟨?_, rfl⟩
  intro svc
  refine ⟨?_, ?_, ?_⟩
  · simp [post_analysis, validate_analysis_request, hd]
  · simp [post_analysis, validate_analysis_request, hd, HttpOutcome.status]
  · intro svc2
    simp [post_analysis, validate_analysis_request, hd]

/-- Witness for C2 at buffer 60000. -/
theorem c2_buffer_range_rejected_witness :
    ((50000 : Int) < 60000 ∨ (60000 : Int) < 1000) ∧
    (post_analysis none freshEEState 28 3 (.intVal 60000) emptySvc).1 =
      freshEEState ∧
    (post_analysis none freshEEState 28 3 (.intVal 60000) emptySvc).2.status =
      422 ∧
    validate_buffer .omitted = .ok (some 10000) := by
  have h := c2_buffer_range_rejected none freshEEState 28 3 60000
    (Or.inr (by norm_num))
  exact ⟨Or.inl (by norm_num), (h.1 emptySvc).1, (h.1 emptySvc).2.1, h.2⟩

/-- Claim C10: an explicit null `buffer_meters` passes boundary validation
and yields a request carrying `none` (the default 10000 is not substituted);
a later failure inside `run_analysis` surfaces as a 500. -/
theorem c10_null_buffer_accepted (lat lon : Rat) (pk : Option String)
    (ee ee2 : EEState) (svc : RemoteService) (e : String)
    (h : run_analysis pk ee
        { latitude := lat, longitude := lon, buffer_meters := none } svc =
        (ee2, .error e)) :
    validate_analysis_request lat lon .null =
      .ok { latitude := lat, longitude := lon, buffer_meters := none } ∧
    post_analysis pk ee lat lon .null svc = (ee2, .serverError e) ∧
    (HttpOutcome.serverError e).status = 500 := by
  refine ⟨rfl, ?_, rfl⟩
  simp [post_analysis, validate_analysis_request, validate_buffer, h]

/-- Witness for C10: a null buffer against a remote service whose first
round trip raises. -/
theorem c10_null_buffer_accepted_witness :
    validate_analysis_request 28 3 .null =
      .ok { latitude := 28, longitude := 3, buffer_meters := none } ∧
    post_analysis (some "pk") readyEE 28 3 .null failingSvc =
      (readyEE, .serverError "Computation failed") := by
  have h := c10_null_buffer_accepted 28 3 (some "pk") readyEE readyEE
    failingSvc "Computation failed" (by rfl)
  exact ⟨h.1, h.2.1⟩

/-- A successful layer evaluation copies the definition identifier into the
resulting preview. -/
theorem evaluate_layer_id (svc : RemoteService) (region : Region)
    (d : LayerDefinition) (r : LayerResult)
    (h : _evaluate_layer svc region d = .ok r) : r.layer.id = d.id := by
  simp only [_evaluate_layer] at h
  cases h1 : _compute_statistics svc region (d.compute region).imageBand
      (d.compute region).scale with
  | error e => simp [h1] at h
  | ok stats =>
  simp only [h1] at h
  cases h2 : _compute_classification_summary svc region
      (d.compute region).classificationBand (d.compute region).scale with
  | error e => simp [h2] at h
  | ok cls =>
  simp only [h2] at h
  cases h3 : _build_tile_url svc (d.compute region).imageBand with
  | error e => simp [h3] at h
  | ok tile =>
  simp only [h3] at h
  cases h4 : _build_thumb_url svc region (d.compute region).imageBand with
  | error e => simp [h4] at h
  | ok thumb =>
  simp only [h4] at h
  cases h
  rfl

/-- A successful layer loop returns one result per catalog entry, with the
catalog identifiers in order. -/
theorem evalLayers_ids (svc : RemoteService) (region : Region) :
    ∀ (defs : List LayerDefinition) (rs : List LayerResult),
      evalLayers svc region defs = .ok rs →
      rs.map (fun lr => lr.layer.id) = defs.map (fun d => d.id) := by
  intro defs
  induction defs with
  | nil =>
      intro rs h
      cases h
      rfl
  | cons d ds ih =>
      intro rs h
      simp only [evalLayers] at h
      cases hr : _evaluate_layer svc region d with
      | error e => simp [hr] at h
      | ok r =>
      simp only [hr] at h
      cases hrs : evalLayers svc region ds with
      | error e => simp [hrs] at h
      | ok rs2 =>
      simp only [hrs] at h
      cases h
      simp only [List.map_cons]
      rw [evaluate_layer_id svc region d r hr, ih rs2 hrs]

/-- A successful run of the core returns layers matching the catalog. -/
theorem run_analysis_core_layers (req : AnalysisRequest) (svc : RemoteService)
    (resp : AnalysisResponse) (h : run_analysis_core req svc = .ok resp) :
    resp.layers.map (fun lr => lr.layer.id) =
      LAYER_DEFINITIONS.map (fun d => d.id) := by
  simp only [run_analysis_core] at h
  cases ha : svc.regionAreaInfo (_create_analysis_region req) with
  | error e => simp [ha] at h
  | ok area =>
  simp only [ha] at h
  cases hrs : evalLayers svc (_create_analysis_region req) LAYER_DEFINITIONS with
  | error e => simp [hrs] at h
  | ok rs =>
  simp only [hrs] at h
  cases h
  exact evalLayers_ids svc _ LAYER_DEFINITIONS rs hrs

/-- Claim C5 (essence): once a body passes validation, a raised exception
anywhere inside `run_analysis` surfaces as a 500 whose detail is exactly the
string of the exception, and every 200 response carries one result per
catalog entry (never a partial response). -/
theorem c5_failures_become_500 (pk : Option String) (ee : EEState)
    (lat lon : Rat) (buf : BufferField) (svc : RemoteService) :
    (∀ (req : AnalysisRequest) (ee2 : EEState) (e : String),
        validate_analysis_request lat lon buf = .ok req →
        run_analysis pk ee req svc = (ee2, .error e) →
        post_analysis pk ee lat lon buf svc = (ee2, .serverError e)) ∧
    (∀ (st2 : EEState) (resp : AnalysisResponse),
        post_analysis pk ee lat lon buf svc = (st2, .success resp) →
        resp.layers.length = LAYER_DEFINITIONS.length) := by
  constructor
  · intro req ee2 e hval hrun
    simp [post_analysis, hval, hrun]
  · intro st2 resp h
    simp only [post_analysis] at h
    cases hval : validate_analysis_request lat lon buf with
    | error d => simp [hval] at h
    | ok req =>
    simp only [hval, run_analysis] at h
    cases hini : initialize_earth_engine pk ee with
    | error e => simp [hini] at h
    | ok ee4 =>
    simp only [hini] at h
    cases hcore : run_analysis_core req svc with
    | error e => simp [hcore] at h
    | ok resp2 =>
    simp only [hcore] at h
    cases h
    have hids := run_analysis_core_layers req svc resp hcore
    simpa using congrArg List.length hids

/-- Claim C1 (amended): a successful `run_analysis` returns one `LayerResult`
per catalog entry — eleven, not ten — in the declared catalog order,
`soil_stability` first and `groundwater_quality` last. -/
theorem c1_layer_catalog_order (pk : Option String) (ee ee2 : EEState)
    (req : AnalysisRequest) (svc : RemoteService) (resp : AnalysisResponse)
    (h : run_analysis pk ee req svc = (ee2, .ok resp)) :
    resp.layers.length = LAYER_DEFINITIONS.length ∧
    LAYER_DEFINITIONS.length = 11 ∧
    resp.layers.map (fun lr => lr.layer.id) =
      LAYER_DEFINITIONS.map (fun d => d.id) ∧
    LAYER_DEFINITIONS.map (fun d => d.id) =
      ["soil_stability", "solid_rock", "water_sources", "storage_capacity",
       "flood_risk", "topographic_suitability", "drainage_density",
       "sun_aspect", "wildlife_impact", "undisturbed_areas",
       "groundwater_quality"] := by
  have hcore : run_analysis_core req svc = .ok resp := by
    simp only [run_analysis] at h
    cases hini : initialize_earth_engine pk ee with
    | error e => simp [hini] at h
    | ok ee3 =>
        simp only [hini] at h
        simpa using congrArg Prod.snd h
  have hids := run_analysis_core_layers req svc resp hcore
  exact ⟨by simpa using congrArg List.length hids, rfl, hids, rfl⟩

/-- Counterexample to C1 as stated: at a concrete request and a concrete
successful remote service, the response carries eleven layer results, not
ten. -/
theorem c1_ten_layers_counterexample :
    (run_analysis (some "pk") readyEE demoRequest emptySvc).2 = .ok demoResp ∧
    demoResp.layers.length = 11 ∧ ¬demoResp.layers.length = 10 := by
  have h11 : demoResp.layers.length = 11 := rfl
  refine ⟨rfl, h11, ?_⟩
  rw [h11]
  decide

/-- Witness for C1 (amended) at a concrete request and remote service. -/
theorem c1_layer_catalog_order_witness :
    demoResp.layers.length = LAYER_DEFINITIONS.length ∧
    LAYER_DEFINITIONS.length = 11 := by
  have h : run_analysis (some "pk") readyEE demoRequest emptySvc =
      (readyEE, .ok demoResp) := rfl
  exact ⟨(c1_layer_catalog_order (some "pk") readyEE readyEE demoRequest
      emptySvc demoResp h).1,
    (c1_layer_catalog_order (some "pk") readyEE readyEE demoRequest
      emptySvc demoResp h).2.1⟩

/-- Summing the percentage column produced from a class-count list. -/
theorem sum_map_percentage (l : List (Int × Rat)) (T : Rat) :
    ((l.map (fun c => (toString c.1, c.2 / T * 100))).map
        (fun kv => kv.2)).sum =
      (l.map (fun c => c.2)).sum / T * 100 := by
  induction l with
  | nil => simp
  | cons a l ih =>
      simp only [List.map_cons, List.sum_cons]
      rw [ih, add_div, add_mul]

/-- Claim C3: whenever `_compute_classification_summary` returns a summary,
its percentage values sum to exactly 100 (hence to 100 within 0.01). -/
theorem c3_percentages_sum_100 (svc : RemoteService) (region : Region)
    (ci : Option String) (scale : Nat) (summary : List (String × Rat))
    (h : _compute_classification_summary svc region ci scale =
        .ok (some summary)) :
    (summary.map (fun kv => kv.2)).sum = 100 := by
  simp only [_compute_classification_summary] at h
  cases ci with
  | none => simp at h
  | some key =>
  cases hh : svc.histInfo region key scale with
  | error e => simp [hh] at h
  | ok histogram =>
  simp only [hh] at h
  cases hb : svc.bandNamesInfo key with
  | error e => simp [hb] at h
  | ok bns =>
  simp only [hb] at h
  cases bns with
  | nil => simp at h
  | cons band rest =>
  cases hcc : dictGet histogram band with
  | none => simp [hcc] at h
  | some cc0 =>
  simp only [hcc] at h
  cases cc0 with
  | none => simp at h
  | some class_counts =>
  by_cases he : class_counts.isEmpty
  · simp [he] at h
  · simp only [he, if_false, Bool.false_eq_true] at h
    by_cases h0 : (class_counts.map (fun c => c.2)).sum = 0
    · simp [h0] at h
    · simp only [h0, if_false] at h
      have hsum : summary = class_counts.map
          (fun c => (toString c.1,
            c.2 / (class_counts.map (fun c => c.2)).sum * 100)) := by
        simpa using h.symm
      rw [hsum, sum_map_percentage, div_self h0, one_mul]

/-- Witness for C3: a histogram of 30 pixels in class 0 and 70 in class 1. -/
theorem c3_percentages_sum_100_witness :
    _compute_classification_summary histSvc
        (_create_analysis_region demoRequest) (some "soil_stability_class")
        250 =
      .ok (some [("0", 30 / (30 + (70 + 0)) * 100),
                 ("1", 70 / (30 + (70 + 0)) * 100)]) ∧
    ([("0", (30 : Rat) / (30 + (70 + 0)) * 100),
      ("1", (70 : Rat) / (30 + (70 + 0)) * 100)].map
        (fun kv => kv.2)).sum = 100 := by
  have h : _compute_classification_summary histSvc
      (_create_analysis_region demoRequest) (some "soil_stability_class")
      250 =
      .ok (some [("0", 30 / (30 + (70 + 0)) * 100),
                 ("1", 70 / (30 + (70 + 0)) * 100)]) := by
    simp only [_compute_classification_summary, histSvc, dictGet, List.find?]
    norm_num
    exact ⟨rfl, rfl⟩
  exact ⟨h, c3_percentages_sum_100 histSvc (_create_analysis_region demoRequest)
    (some "soil_stability_class") 250 _ h⟩

/-- Against a remote service returning null or missing aggregates and a
non-empty band list, a single layer evaluates successfully to zero-filled
statistics and no classification summary. -/
theorem evaluate_layer_empty (svc : RemoteService) (region : Region)
    (hstats : ∀ (region2 : Region) (key : String) (scale : Nat),
        ∃ sd, svc.statsInfo region2 key scale = .ok sd ∧
          ∀ k2, dictGet sd k2 = none ∨ dictGet sd k2 = some none)
    (hbands : ∀ key : String, ∃ b bs, svc.bandNamesInfo key = .ok (b :: bs))
    (hhist : ∀ (region2 : Region) (key : String) (scale : Nat),
        ∃ hd2, svc.histInfo region2 key scale = .ok hd2 ∧
          ∀ b, dictGet hd2 b = none ∨ dictGet hd2 b = some none ∨
            dictGet hd2 b = some (some []))
    (hmap : ∀ key : String, ∃ mt, svc.mapIdInfo key = .ok mt)
    (hthumb : ∀ (region2 : Region) (key : String),
        ∃ u, svc.thumbUrlInfo region2 key = .ok u)
    (d : LayerDefinition) :
    ∃ r, _evaluate_layer svc region d = .ok r ∧
      r.statistics = { mean := 0, min := 0, max := 0, std_dev := 0 } ∧
      r.classification_summary = none := by
  obtain ⟨sd, hsd, hsdk⟩ :=
    hstats region (d.compute region).imageBand (d.compute region).scale
  obtain ⟨b, bs, hb⟩ := hbands (d.compute region).imageBand
  have hstatsEq : _compute_statistics svc region (d.compute region).imageBand
      (d.compute region).scale =
      .ok { mean := 0, min := 0, max := 0, std_dev := 0 } := by
    have hz : ∀ k2, pyGetOr0 sd k2 = 0 := by
      intro k2
      rcases hsdk k2 with hk | hk <;> simp [pyGetOr0, hk]
    simp [_compute_statistics, hsd, hb, hz]
  have hclsEq : _compute_classification_summary svc region
      (d.compute region).classificationBand (d.compute region).scale =
      .ok none := by
    cases hcb : (d.compute region).classificationBand with
    | none => simp [_compute_classification_summary]
    | some key =>
        obtain ⟨hd2, hhd, hhdk⟩ := hhist region key (d.compute region).scale
        obtain ⟨b2, bs2, hb2⟩ := hbands key
        rcases hhdk b2 with hk | hk | hk <;>
          simp [_compute_classification_summary, hhd, hb2, hk]
  obtain ⟨mt, hmt⟩ := hmap (d.compute region).imageBand
  obtain ⟨u, hu⟩ := hthumb region (d.compute region).imageBand
  have hev : _evaluate_layer svc region d = .ok
      { layer :=
          { id := d.id, name := d.name,
            description := d.description, thumb_url := u,
            legend_min := d.min_value, legend_max := d.max_value,
            legend_units := d.units, palette := d.palette,
            tile_url_template :=
              "https://earthengine.googleapis.com/map/" ++ mt.1 ++
                "/{z}/{x}/{y}?token=" ++ mt.2 },
        statistics := { mean := 0, min := 0, max := 0, std_dev := 0 },
        classification_summary := none } := by
    simp [_evaluate_layer, hstatsEq, hclsEq, _build_tile_url, hmt,
      _build_thumb_url, hu]
  exact ⟨_, hev, rfl, rfl⟩

/-- When every layer evaluates successfully to a result satisfying `P`, the
whole loop succeeds with every result satisfying `P`. -/
theorem evalLayers_all_ok (svc : RemoteService) (region : Region)
    (P : LayerResult → Prop)
    (h : ∀ d : LayerDefinition,
        ∃ r, _evaluate_layer svc region d = .ok r ∧ P r) :
    ∀ defs : List LayerDefinition,
      ∃ rs, evalLayers svc region defs = .ok rs ∧ ∀ lr ∈ rs, P lr := by
  intro defs
  induction defs with
  | nil => exact ⟨[], rfl, by simp⟩
  | cons d ds ih =>
      obtain ⟨r, hr, hP⟩ := h d
      obtain ⟨rs, hrs, hPs⟩ := ih
      refine ⟨r :: rs, ?_, ?_⟩
      · simp [evalLayers, hr, hrs]
      · intro lr hlr
        rcases List.mem_cons.mp hlr with rfl | hmem
        · exact hP
        · exact hPs lr hmem

/-- Claim C4: when the buffered point misses the study area, so every remote
reduction returns null or empty aggregates and the area evaluates to 0,
`run_analysis` does not raise: it returns a response with zero area,
zero-filled statistics and no classification summary for every layer. -/
theorem c4_empty_region_zero_response (pk : Option String) (ee : EEState)
    (req : AnalysisRequest) (svc : RemoteService)
    (hee : ee.credentials = true)
    (harea : ∀ region : Region, svc.regionAreaInfo region = .ok 0)
    (hstats : ∀ (region2 : Region) (key : String) (scale : Nat),
        ∃ sd, svc.statsInfo region2 key scale = .ok sd ∧
          ∀ k2, dictGet sd k2 = none ∨ dictGet sd k2 = some none)
    (hbands : ∀ key : String, ∃ b bs, svc.bandNamesInfo key = .ok (b :: bs))
    (hhist : ∀ (region2 : Region) (key : String) (scale : Nat),
        ∃ hd2, svc.histInfo region2 key scale = .ok hd2 ∧
          ∀ b, dictGet hd2 b = none ∨ dictGet hd2 b = some none ∨
            dictGet hd2 b = some (some []))
    (hmap : ∀ key : String, ∃ mt, svc.mapIdInfo key = .ok mt)
    (hthumb : ∀ (region2 : Region) (key : String),
        ∃ u, svc.thumbUrlInfo region2 key = .ok u) :
    ∃ resp, run_analysis pk ee req svc = (ee, .ok resp) ∧
      resp.region_area_sqkm = 0 ∧
      ∀ lr ∈ resp.layers,
        lr.statistics = { mean := 0, min := 0, max := 0, std_dev := 0 } ∧
        lr.classification_summary = none := by
  obtain ⟨rs, hrs, hPs⟩ := evalLayers_all_ok svc (_create_analysis_region req)
    (fun lr => lr.statistics = { mean := 0, min := 0, max := 0, std_dev := 0 } ∧
      lr.classification_summary = none)
    (evaluate_layer_empty svc (_create_analysis_region req) hstats hbands
      hhist hmap hthumb)
    LAYER_DEFINITIONS
  refine ⟨{ requested_at := svc.now, region_area_sqkm := 0, layers := rs },
    ?_, rfl, hPs⟩
  simp [run_analysis, credentials_preserved pk ee hee, run_analysis_core,
    harea, hrs]

/-- Witness for C4: the concrete all-empty remote service. -/
theorem c4_empty_region_zero_response_witness :
    ∃ resp, run_analysis (some "pk") readyEE demoRequest emptySvc =
        (readyEE, .ok resp) ∧
      resp.region_area_sqkm = 0 ∧
      ∀ lr ∈ resp.layers,
        lr.statistics = { mean := 0, min := 0, max := 0, std_dev := 0 } ∧
        lr.classification_summary = none := by
  exact c4_empty_region_zero_response (some "pk") readyEE demoRequest emptySvc
    rfl
    (fun _ => rfl)
    (fun _ _ _ => ⟨[], rfl, fun _ => Or.inl rfl⟩)
    (fun key => ⟨key, [], rfl⟩)
    (fun _ _ _ => ⟨[], rfl, fun _ => Or.inl rfl⟩)
    (fun _ => ⟨("mapid", "token"), rfl⟩)
    (fun _ _ => ⟨"https://example.test/thumb.png", rfl⟩)

/-- The settings component of the application state is never written by
POST /analysis requests. -/
theorem run_requests_config (pk : Option String) :
    ∀ (inputs : List AnalysisInput) (st : AppState),
      (run_requests pk inputs st).config = st.config := by
  intro inputs
  induction inputs with
  | nil => intro st; rfl
  | cons inp rest ih =>
      intro st
      simp only [run_requests]
      rw [ih]
      rfl

/-- Claim C9: GET /health always answers status ok with exactly the
configured service account and asset identifier, these are unchanged by any
number of prior POST /analysis requests, and when ALGERIA_REGION_ASSET is
unset the configured asset identifier is the documented default. -/
theorem c9_health_stable (pk : Option String) (st : AppState)
    (inputs : List AnalysisInput) (env : Env) (s : Settings)
    (hunset : env.algeria_region_asset = none)
    (hok : Settings.from_env env = .ok s) :
    health_check (run_requests pk inputs st).config = health_check st.config ∧
    health_check st.config =
      { status := "ok"
      , service_account := st.config.ee_service_account
      , region_asset := st.config.algeria_asset_id } ∧
    s.algeria_asset_id = "projects/ee-bensefiasofian/assets/Maine" := by
  refine ⟨by rw [run_requests_config], rfl, ?_⟩
  simp only [Settings.from_env] at hok
  cases h1 : pyTruthy env.ee_credentials_path with
  | false => simp [h1] at hok
  | true =>
  cases h2 : pyTruthy env.ee_service_account with
  | false => simp [h1, h2] at hok
  | true =>
  simp only [h1, h2, Bool.not_true, Bool.false_eq_true, if_false] at hok
  cases h3 : pyInt ((env.ee_default_buffer_m).getD "10000") with
  | none => simp [h3] at hok
  | some b =>
      simp only [h3] at hok
      cases hok
      simp [hunset]

/-- A concrete environment with the two required variables set and the
optional ones unset. -/
def demoEnv : Env :=
  { ee_credentials_path := some "service-account.json"
  , ee_service_account := some "reservoir@example.iam.gserviceaccount.com"
  , algeria_region_asset := none
  , ee_default_buffer_m := none }

/-- The settings `Settings.from_env` produces for `demoEnv`. -/
def demoSettings : Settings :=
  { ee_service_account := "reservoir@example.iam.gserviceaccount.com"
  , ee_credentials_path := "service-account.json"
  , algeria_asset_id := "projects/ee-bensefiasofian/assets/Maine"
  , default_buffer_m := 10000 }

/-- Witness for C9 at a concrete state, one prior request and `demoEnv`. -/
theorem c9_health_stable_witness :
    health_check (run_requests none
        [{ lat := 28, lon := 3, buffer := .omitted, svc := emptySvc }]
        { config := demoSettings, ee := freshEEState }).config =
      health_check demoSettings ∧
    demoSettings.algeria_asset_id =
      "projects/ee-bensefiasofian/assets/Maine" := by
  have h := c9_health_stable none
    { config := demoSettings, ee := freshEEState }
    [{ lat := 28, lon := 3, buffer := .omitted, svc := emptySvc }]
    demoEnv demoSettings rfl (by rfl)
  exact ⟨h.1, h.2.2⟩

end ReservoirGis
